import Mathlib

/-!
Verification of the bus1 active-reference lifecycle primitive (src/ipc/bus1/active.c)
and the message-queue clock and node predicates (src/ipc/bus1/util/queue.h).

The active-reference object holds a single atomic signed 32-bit counter
(`struct bus1_active { atomic_t count; }`). We embed the counter value as an
unbounded `Int`; all the lifecycle constants and the transitions of interest stay
well inside the 32-bit range (the source reserves `INT_MIN` precisely so that no
arithmetic in the lifecycle protocol overflows). Each atomic read-modify-write of
the C code becomes a pure function from the observed counter value to the new
counter value plus the visible outputs; a CAS retry loop is collapsed to its
uncontended first iteration, which is the sequential semantics of the operation.
A NULL object pointer is embedded as `none : Option Int`.
-/

namespace Bus1

/-- INT_MIN of the C `int` type: the counter in `struct bus1_active` is a 32-bit
signed `atomic_t`. -/
def INT_MIN : Int := -(2 ^ 31)

/-- BUS1_ACTIVE_BIAS from active.c: `INT_MIN + 5`. -/
def BUS1_ACTIVE_BIAS : Int := INT_MIN + 5

/-- BUS1_ACTIVE_RELEASE_DIRECT from active.c: `BIAS - 1`. -/
def BUS1_ACTIVE_RELEASE_DIRECT : Int := BUS1_ACTIVE_BIAS - 1

/-- BUS1_ACTIVE_RELEASE from active.c: `BIAS - 2`. -/
def BUS1_ACTIVE_RELEASE : Int := BUS1_ACTIVE_BIAS - 2

/-- BUS1_ACTIVE_DRAINED from active.c: `BIAS - 3`. -/
def BUS1_ACTIVE_DRAINED : Int := BUS1_ACTIVE_BIAS - 3

/-- BUS1_ACTIVE_NEW from active.c: `BIAS - 4`; initial counter value set by
`bus1_active_init`. -/
def BUS1_ACTIVE_NEW : Int := BUS1_ACTIVE_BIAS - 4

/-- atomic_cmpxchg(&count, old, new), acting on the observed counter value:
returns the prior value together with the updated counter (updated iff the prior
value equals `old`). -/
def atomic_cmpxchg (count old new : Int) : Int × Int :=
  (count, if count = old then new else count)

/-- atomic_inc_unless_negative(&count): kernel primitive used by
`bus1_active_acquire`. Sequentially, the CAS loop increments iff the counter is
non-negative; the Bool reports whether the increment happened. -/
def atomic_inc_unless_negative (count : Int) : Int × Bool :=
  if 0 ≤ count then (count + 1, true) else (count, false)

/-- bus1_active_add_unless_negative from active.c: CAS loop that adds `add` to
the counter iff the counter is non-negative (sequential collapse of the loop);
the Bool is the 1/0 return value. -/
def bus1_active_add_unless_negative (count add : Int) : Int × Bool :=
  if 0 ≤ count then (count + add, true) else (count, false)

/-- bus1_active_is_new from active.c: `count == BUS1_ACTIVE_NEW`. -/
def bus1_active_is_new (count : Int) : Bool :=
  count = BUS1_ACTIVE_NEW

/-- bus1_active_is_active from active.c: `count >= 0`. -/
def bus1_active_is_active (count : Int) : Bool :=
  0 ≤ count

/-- bus1_active_is_deactivated from active.c:
`v > BUS1_ACTIVE_NEW && v < 0`. -/
def bus1_active_is_deactivated (count : Int) : Bool :=
  BUS1_ACTIVE_NEW < count ∧ count < 0

/-- bus1_active_activate from active.c: CAS NEW → 0; returns the new counter and
whether this call performed the transition. -/
def bus1_active_activate (count : Int) : Int × Bool :=
  let r := atomic_cmpxchg count BUS1_ACTIVE_NEW 0
  (r.2, r.1 = BUS1_ACTIVE_NEW)

/-- bus1_active_deactivate from active.c: CAS NEW → RELEASE_DIRECT; if the CAS
observed a non-NEW value, add BIAS unless the counter is negative. Returns the
new counter value. -/
def bus1_active_deactivate (count : Int) : Int :=
  let r := atomic_cmpxchg count BUS1_ACTIVE_NEW BUS1_ACTIVE_RELEASE_DIRECT
  if r.1 ≠ BUS1_ACTIVE_NEW then
    (bus1_active_add_unless_negative r.2 BUS1_ACTIVE_BIAS).1
  else
    r.2

/-- Result of `bus1_active_acquire`: the counter after the call (`none` when a
NULL object was passed) and whether the object pointer (rather than NULL) was
returned. -/
structure AcquireResult where
  count : Option Int
  ret : Bool
deriving DecidableEq, Repr

/-- bus1_active_acquire from active.c:
`res = active && atomic_inc_unless_negative(&active->count); return res ? active : NULL;`
A NULL object is `none`; `ret = true` means the object pointer was returned. -/
def bus1_active_acquire (active : Option Int) : AcquireResult :=
  match active with
  | none => ⟨none, false⟩
  | some count =>
      let r := atomic_inc_unless_negative count
      ⟨some r.1, r.2⟩

/-- Result of `bus1_active_release`: the counter after the call (`none` when a
NULL object was passed) and whether `wake_up` was called on the wait-queue. The
C function always returns NULL, so the pointer return value carries no
information and is not modelled. -/
structure ReleaseResult where
  count : Option Int
  woke : Bool
deriving DecidableEq, Repr

/-- bus1_active_release from active.c: on a non-NULL object, atomically
decrement the counter; if the new value equals BIAS and a wait-queue was
supplied, wake one waiter. A NULL object is a no-op. `waitq` records whether a
non-NULL wait-queue was passed. -/
def bus1_active_release (active : Option Int) (waitq : Bool) : ReleaseResult :=
  match active with
  | none => ⟨none, false⟩
  | some count =>
      let v := count - 1
      ⟨some v, decide (v = BUS1_ACTIVE_BIAS) && waitq⟩

/-- Result of one `bus1_active_drain` call, sequentially: the counter when the
call returns, whether this caller's CAS installed RELEASE, whether the release
callback was invoked, whether `wake_up_all` ran, whether the WARN_ON fired, and
the Bool return value. -/
structure DrainResult where
  count : Int
  tookRelease : Bool
  cbInvoked : Bool
  wokeAll : Bool
  warned : Bool
  ret : Bool
deriving DecidableEq, Repr

/-- bus1_active_drain from active.c, acting on the observed counter value with
no concurrent mutators. `hasCb` records whether a non-NULL release callback was
passed. The two `wait_event` sleeps never terminate unless their condition
already holds, so a call that would sleep forever is embedded as `none`:
`wait_event(count <= BIAS)` blocks when references are still outstanding, and
the loser-side `wait_event(count == DRAINED)` blocks while the winner is still
between its CAS to RELEASE and its store of DRAINED. -/
def bus1_active_drain (count : Int) (hasCb : Bool) : Option DrainResult :=
  if bus1_active_is_deactivated count = false then
    some ⟨count, false, false, false, true, false⟩
  else if BUS1_ACTIVE_BIAS < count then
    none
  else
    let r1 := atomic_cmpxchg count BUS1_ACTIVE_RELEASE_DIRECT BUS1_ACTIVE_RELEASE
    let r2 := if r1.1 ≠ BUS1_ACTIVE_RELEASE_DIRECT then
                atomic_cmpxchg r1.2 BUS1_ACTIVE_BIAS BUS1_ACTIVE_RELEASE
              else r1
    if r2.1 = BUS1_ACTIVE_BIAS ∨ r2.1 = BUS1_ACTIVE_RELEASE_DIRECT then
      some ⟨BUS1_ACTIVE_DRAINED, true, hasCb, true, false, true⟩
    else if r2.2 = BUS1_ACTIVE_DRAINED then
      some ⟨r2.2, false, false, false, false, false⟩
    else
      none

/-- Abstract lifecycle states of an active-reference counter, following the
state table of the documentation comment at the top of active.c. `invalid`
covers integer values outside every documented region (never produced by the
operations). -/
inductive ARState where
  | new
  | active
  | draining
  | releaseDirect
  | release
  | drained
  | invalid
deriving DecidableEq, Repr

/-- Classification of a counter value into its lifecycle state: `count >= 0` is
ACTIVE(count); `BIAS <= count < 0` is DRAINING(count - BIAS); the four sentinel
values are their own states. -/
def bus1_active_state (count : Int) : ARState :=
  if 0 ≤ count then ARState.active
  else if BUS1_ACTIVE_BIAS ≤ count then ARState.draining
  else if count = BUS1_ACTIVE_RELEASE_DIRECT then ARState.releaseDirect
  else if count = BUS1_ACTIVE_RELEASE then ARState.release
  else if count = BUS1_ACTIVE_DRAINED then ARState.drained
  else if count = BUS1_ACTIVE_NEW then ARState.new
  else ARState.invalid

/-- Number of outstanding active references encoded in a counter value: `count`
itself while active, `count - BIAS` while draining, none in the sentinel
states. -/
def bus1_active_refs (count : Int) : Int :=
  if 0 ≤ count then count
  else if BUS1_ACTIVE_BIAS ≤ count then count - BUS1_ACTIVE_BIAS
  else 0

/-- Forward order on lifecycle states: `stateLe s t` holds iff the documented
state machine can move from `s` to `t` (reflexively), along
NEW → ACTIVE → DRAINING → RELEASE → DRAINED and NEW → RELEASE_DIRECT →
RELEASE → DRAINED. -/
def stateLe : ARState → ARState → Bool
  | ARState.new, ARState.invalid => false
  | ARState.new, _ => true
  | ARState.active, ARState.active => true
  | ARState.active, ARState.draining => true
  | ARState.active, ARState.release => true
  | ARState.active, ARState.drained => true
  | ARState.draining, ARState.draining => true
  | ARState.draining, ARState.release => true
  | ARState.draining, ARState.drained => true
  | ARState.releaseDirect, ARState.releaseDirect => true
  | ARState.releaseDirect, ARState.release => true
  | ARState.releaseDirect, ARState.drained => true
  | ARState.release, ARState.release => true
  | ARState.release, ARState.drained => true
  | ARState.drained, ARState.drained => true
  | ARState.invalid, ARState.invalid => true
  | _, _ => false

/-- One atomic mutation of the counter, as performed by the public operations of
active.c. Each constructor is one atomic read-modify-write of the source:
`activate` is the CAS in bus1_active_activate; `acquire` the successful
atomic_inc_unless_negative in bus1_active_acquire; `release` the
atomic_dec_return in bus1_active_release, guarded by the claim hypothesis that
every release balances a prior successful acquire (so a reference is
outstanding); `deactivate_cas` and `deactivate_add` the two atomics of
bus1_active_deactivate; `drain_cas_direct` and `drain_cas_bias` the two CAS
attempts of bus1_active_drain; `drain_set` the winning drainer's
atomic_set(DRAINED), which the source performs while the counter still holds
RELEASE (no other operation mutates a counter in state RELEASE). Calls that
leave the counter unchanged (failed CAS, rejected acquire, WARN path) perform
no mutation and hence contribute no step. -/
inductive BusStep : Int → Int → Prop where
  | activate : BusStep BUS1_ACTIVE_NEW 0
  | acquire (v : Int) (h : 0 ≤ v) : BusStep v (v + 1)
  | release (v : Int) (h : 0 < bus1_active_refs v) : BusStep v (v - 1)
  | deactivate_cas : BusStep BUS1_ACTIVE_NEW BUS1_ACTIVE_RELEASE_DIRECT
  | deactivate_add (v : Int) (h : 0 ≤ v) : BusStep v (v + BUS1_ACTIVE_BIAS)
  | drain_cas_direct : BusStep BUS1_ACTIVE_RELEASE_DIRECT BUS1_ACTIVE_RELEASE
  | drain_cas_bias : BusStep BUS1_ACTIVE_BIAS BUS1_ACTIVE_RELEASE
  | drain_set : BusStep BUS1_ACTIVE_RELEASE BUS1_ACTIVE_DRAINED

theorem stateLe_refl (s : ARState) : stateLe s s = true := by
  cases s <;> rfl

theorem stateLe_trans (a b c : ARState) :
    stateLe a b = true → stateLe b c = true → stateLe a c = true := by
  cases a <;> cases b <;> cases c <;> decide

theorem state_of_nonneg (v : Int) (h : 0 ≤ v) :
    bus1_active_state v = ARState.active := by
  simp [bus1_active_state, h]

theorem state_of_draining (v : Int) (h1 : v < 0) (h2 : BUS1_ACTIVE_BIAS ≤ v) :
    bus1_active_state v = ARState.draining := by
  have h3 : ¬ (0 ≤ v) := by omega
  simp [bus1_active_state, h3, h2]

theorem busStep_stateLe (v w : Int) (h : BusStep v w) :
    stateLe (bus1_active_state v) (bus1_active_state w) = true := by
  cases h with
  | activate => decide
  | acquire v hv =>
      rw [state_of_nonneg v hv, state_of_nonneg (v + 1) (by omega)]
      decide
  | release v hv =>
      by_cases h0 : 0 ≤ v
      · have h1 : (0:Int) < v := by
          by_contra hc
          have hv0 : v = 0 := by omega
          rw [hv0] at hv
          simp [bus1_active_refs] at hv
        rw [state_of_nonneg v h0, state_of_nonneg (v - 1) (by omega)]
        decide
      · have hB : BUS1_ACTIVE_BIAS ≤ v := by
          by_contra hc
          simp [bus1_active_refs, h0, hc] at hv
        have h1 : BUS1_ACTIVE_BIAS < v := by
          by_contra hc
          have hvB : v = BUS1_ACTIVE_BIAS := by omega
          rw [hvB] at hv
          simp [bus1_active_refs] at hv
          omega
        rw [state_of_draining v (by omega) hB,
            state_of_draining (v - 1) (by omega) (by omega)]
        decide
  | deactivate_cas => decide
  | deactivate_add v hv =>
      by_cases h2 : 0 ≤ v + BUS1_ACTIVE_BIAS
      · rw [state_of_nonneg v hv, state_of_nonneg _ h2]
        decide
      · rw [state_of_nonneg v hv, state_of_draining _ (by omega) (by omega)]
        decide
  | drain_cas_direct => decide
  | drain_cas_bias => decide
  | drain_set => decide

/-- C1: on an ActiveRef whose deactivation has taken effect and whose
references are all released (counter RELEASE_DIRECT or BIAS), drain installs
RELEASE exactly once, and only the caller whose CAS succeeded invokes the
release callback (when one was supplied), stores DRAINED, wakes all waiters and
returns true; a drain call whose CAS failed (it finds the counter already at
DRAINED) invokes no callback and returns false. -/
theorem bus1_active_drain_once (v : Int) (cb : Bool)
    (h : v = BUS1_ACTIVE_RELEASE_DIRECT ∨ v = BUS1_ACTIVE_BIAS) :
    bus1_active_drain v cb =
      some ⟨BUS1_ACTIVE_DRAINED, true, cb, true, false, true⟩ ∧
    bus1_active_drain BUS1_ACTIVE_DRAINED cb =
      some ⟨BUS1_ACTIVE_DRAINED, false, false, false, false, false⟩ := by
  rcases h with h | h <;> subst h <;> exact ⟨rfl, rfl⟩

theorem bus1_active_drain_once_witness :
    ((BUS1_ACTIVE_RELEASE_DIRECT = BUS1_ACTIVE_RELEASE_DIRECT ∨
       BUS1_ACTIVE_RELEASE_DIRECT = BUS1_ACTIVE_BIAS) ∧
      bus1_active_drain BUS1_ACTIVE_RELEASE_DIRECT true =
        some ⟨BUS1_ACTIVE_DRAINED, true, true, true, false, true⟩) :=
  ⟨Or.inl rfl,
   (bus1_active_drain_once BUS1_ACTIVE_RELEASE_DIRECT true (Or.inl rfl)).1⟩

/-- C2: along any sequence of counter mutations performed by activate, acquire,
release (balancing a prior successful acquire), deactivate and drain, the
lifecycle state moves only forward along
NEW → ACTIVE → DRAINING → RELEASE → DRAINED or
NEW → RELEASE_DIRECT → RELEASE → DRAINED, and the forward order is
antisymmetric, so no state is ever revisited after leaving it. -/
theorem bus1_active_state_monotone (v w : Int)
    (h : Relation.ReflTransGen BusStep v w) :
    stateLe (bus1_active_state v) (bus1_active_state w) = true ∧
    ∀ s t : ARState, stateLe s t = true → stateLe t s = true → s = t := by
  constructor
  · induction h with
    | refl => exact stateLe_refl _
    | tail hab hbc ih => exact stateLe_trans _ _ _ ih (busStep_stateLe _ _ hbc)
  · intro s t
    cases s <;> cases t <;> decide

theorem bus1_active_state_monotone_witness :
    stateLe (bus1_active_state BUS1_ACTIVE_NEW) (bus1_active_state 0) = true ∧
    ∀ s t : ARState, stateLe s t = true → stateLe t s = true → s = t :=
  bus1_active_state_monotone BUS1_ACTIVE_NEW 0
    (Relation.ReflTransGen.single BusStep.activate)

/-- C3: acquire on a non-NULL object increments the counter by one and returns
the object exactly when the counter is non-negative; on a negative counter it
returns NULL and leaves the counter unchanged, so in particular no acquisition
succeeds on a deactivated object. -/
theorem bus1_active_acquire_spec (v : Int) :
    (0 ≤ v → bus1_active_acquire (some v) = ⟨some (v + 1), true⟩) ∧
    (v < 0 → bus1_active_acquire (some v) = ⟨some v, false⟩) ∧
    (bus1_active_is_deactivated v = true →
      (bus1_active_acquire (some v)).ret = false) := by
  refine ⟨?_, ?_, ?_⟩
  · intro h
    simp [bus1_active_acquire, atomic_inc_unless_negative, h]
  · intro h
    have h2 : ¬ (0 ≤ v) := by omega
    simp [bus1_active_acquire, atomic_inc_unless_negative, h2]
  · intro h
    have h2 : v < 0 := by
      simp [bus1_active_is_deactivated] at h
      exact h.2
    have h3 : ¬ (0 ≤ v) := by omega
    simp [bus1_active_acquire, atomic_inc_unless_negative, h3]

theorem bus1_active_acquire_spec_witness :
    ((0:Int) ≤ 3 ∧ bus1_active_acquire (some 3) = ⟨some 4, true⟩) ∧
    ((-7:Int) < 0 ∧ bus1_active_acquire (some (-7)) = ⟨some (-7), false⟩) :=
  ⟨⟨by decide, (bus1_active_acquire_spec 3).1 (by decide)⟩,
   ⟨by decide, (bus1_active_acquire_spec (-7)).2.1 (by decide)⟩⟩

/-- C4 counterexample: deactivate is not idempotent on the counter. At
ACTIVE(2147483643) (that is, count = -BIAS, a value inside the 32-bit ACTIVE
region of the spec), the first deactivate adds BIAS and yields 0, which is
again non-negative, so a second deactivate adds BIAS once more, yielding BIAS:
the two calls do not have the same effect as one. -/
theorem bus1_active_deactivate_not_idempotent :
    bus1_active_deactivate (bus1_active_deactivate 2147483643) ≠
      bus1_active_deactivate 2147483643 := by
  decide

/-- C4 (amended): deactivate maps NEW to RELEASE_DIRECT, adds BIAS to any
non-negative counter (landing in the DRAINING region whenever fewer than -BIAS
references are outstanding), and leaves any other negative counter unchanged;
it is idempotent on every counter below -BIAS, the amendment being that
idempotence fails for counts of at least -BIAS = 2147483643 (see the
counterexample). -/
theorem bus1_active_deactivate_spec (v : Int) :
    bus1_active_deactivate BUS1_ACTIVE_NEW = BUS1_ACTIVE_RELEASE_DIRECT ∧
    (0 ≤ v → bus1_active_deactivate v = v + BUS1_ACTIVE_BIAS) ∧
    (0 ≤ v → v < -BUS1_ACTIVE_BIAS →
      bus1_active_state (bus1_active_deactivate v) = ARState.draining) ∧
    (v < 0 → v ≠ BUS1_ACTIVE_NEW → bus1_active_deactivate v = v) ∧
    (v < -BUS1_ACTIVE_BIAS →
      bus1_active_deactivate (bus1_active_deactivate v) =
        bus1_active_deactivate v) := by
  have hNEW : BUS1_ACTIVE_NEW < 0 := by decide
  have hadd : ∀ w : Int, 0 ≤ w → bus1_active_deactivate w = w + BUS1_ACTIVE_BIAS := by
    intro w hw
    have hne : w ≠ BUS1_ACTIVE_NEW := by omega
    simp [bus1_active_deactivate, atomic_cmpxchg,
      bus1_active_add_unless_negative, hne, hw]
  have hkeep : ∀ w : Int, w < 0 → w ≠ BUS1_ACTIVE_NEW →
      bus1_active_deactivate w = w := by
    intro w hw hne
    have hw2 : ¬ (0 ≤ w) := by omega
    simp [bus1_active_deactivate, atomic_cmpxchg,
      bus1_active_add_unless_negative, hne, hw2]
  refine ⟨?_, hadd v, ?_, hkeep v, ?_⟩
  · simp [bus1_active_deactivate, atomic_cmpxchg]
  · intro h1 h2
    rw [hadd v h1]
    exact state_of_draining _ (by omega) (by omega)
  · intro h
    by_cases hv : v = BUS1_ACTIVE_NEW
    · subst hv
      have h1 : bus1_active_deactivate BUS1_ACTIVE_NEW =
          BUS1_ACTIVE_RELEASE_DIRECT := by
        simp [bus1_active_deactivate, atomic_cmpxchg]
      rw [h1]
      exact hkeep _ (by decide) (by decide)
    · by_cases h0 : 0 ≤ v
      · rw [hadd v h0]
        exact hkeep _ (by omega) (by
          intro hc
          have hNB : BUS1_ACTIVE_NEW = BUS1_ACTIVE_BIAS - 4 := by decide
          omega)
      · rw [hkeep v (by omega) hv]
        exact hkeep v (by omega) hv

theorem bus1_active_deactivate_spec_witness :
    ((0:Int) ≤ 7 ∧ (7:Int) < -BUS1_ACTIVE_BIAS ∧
      bus1_active_deactivate 7 = 7 + BUS1_ACTIVE_BIAS ∧
      bus1_active_deactivate (bus1_active_deactivate 7) =
        bus1_active_deactivate 7) :=
  ⟨by decide, by decide,
   (bus1_active_deactivate_spec 7).2.1 (by decide),
   (bus1_active_deactivate_spec 7).2.2.2.2 (by decide)⟩

/-- C5: release on a non-NULL object decrements the counter by exactly one and,
with the wait-queue supplied, wakes one waiter exactly when the new counter
value equals BIAS; for any other resulting value no wake is issued. -/
theorem bus1_active_release_spec (v : Int) (wq : Bool) :
    (bus1_active_release (some v) wq).count = some (v - 1) ∧
    ((bus1_active_release (some v) true).woke = true ↔
      v - 1 = BUS1_ACTIVE_BIAS) := by
  constructor
  · rfl
  · simp [bus1_active_release]

/-- C9: drain called on an object that is not deactivated (still NEW, still
active, or never valid) fires the WARN_ON diagnostic and returns false without
invoking the release callback and without touching the counter: the misuse is
detected and reported, with no silent recovery. -/
theorem bus1_active_drain_requires_deactivation (v : Int) (cb : Bool)
    (h : bus1_active_is_deactivated v = false) :
    bus1_active_drain v cb = some ⟨v, false, false, false, true, false⟩ := by
  simp [bus1_active_drain, h]

theorem bus1_active_drain_requires_deactivation_witness :
    bus1_active_is_deactivated BUS1_ACTIVE_NEW = false ∧
    bus1_active_drain BUS1_ACTIVE_NEW true =
      some ⟨BUS1_ACTIVE_NEW, false, false, false, true, false⟩ :=
  ⟨by decide,
   bus1_active_drain_requires_deactivation BUS1_ACTIVE_NEW true (by decide)⟩

/-- C10: the public reference operations tolerate a NULL object pointer:
acquire(NULL) returns NULL without touching any counter, and release(NULL, wq)
is a no-op for every wait-queue argument (and, like every release call, returns
NULL). -/
theorem bus1_active_null_spec (wq : Bool) :
    bus1_active_acquire none = ⟨none, false⟩ ∧
    bus1_active_release none wq = ⟨none, false⟩ :=
  ⟨rfl, rfl⟩

/-!
Message-queue part, from src/ipc/bus1/util/queue.h. The claims under check only
involve the queue clock and the node predicates, so the embedding carries the
`clock` field of `struct bus1_queue` (a `u64`, embedded as `Nat`; the spec notes
that clock wraparound is not a practical concern) and, for nodes, the rb-tree
linkage bit together with the 64-bit `timestamp_and_type` word.
-/

/-- Queue state relevant to the clock claims: the `clock` field of
`struct bus1_queue`. -/
structure bus1_queue where
  clock : Nat
deriving DecidableEq, Repr

/-- bus1_queue_tick from queue.h: `queue->clock += 2; return queue->clock;`.
The result is the updated queue together with the returned value. -/
def bus1_queue_tick (queue : bus1_queue) : bus1_queue × Nat :=
  let q := bus1_queue.mk (queue.clock + 2)
  (q, q.clock)

/-- bus1_queue_sync from queue.h:
`WARN_ON(timestamp & 1); queue->clock = max(queue->clock, timestamp); return queue->clock;`.
The result is the updated queue together with the returned value; the WARN_ON
is a debug diagnostic with no effect on the state (evenness of `timestamp` is
the precondition surfaced in the claims). -/
def bus1_queue_sync (queue : bus1_queue) (timestamp : Nat) : bus1_queue × Nat :=
  let q := bus1_queue.mk (max queue.clock timestamp)
  (q, q.clock)

/-- One clock operation of queue.h: a tick, or a sync with a given timestamp. -/
inductive QOp where
  | tick
  | sync (timestamp : Nat)
deriving DecidableEq, Repr

/-- State effect of one clock operation on the queue. -/
def bus1_queue_apply (queue : bus1_queue) : QOp → bus1_queue
  | QOp.tick => (bus1_queue_tick queue).1
  | QOp.sync t => (bus1_queue_sync queue t).1

/-- Run of a sequence of clock operations on the queue. -/
def bus1_queue_run (queue : bus1_queue) (ops : List QOp) : bus1_queue :=
  ops.foldl bus1_queue_apply queue

/-- Predicate on a clock operation: ticks always qualify, a sync qualifies when
its timestamp argument is even (the documented precondition of
bus1_queue_sync). -/
def QOp.syncEven : QOp → Bool
  | QOp.tick => true
  | QOp.sync t => t % 2 = 0

/-- BUS1_QUEUE_TYPE_SHIFT from queue.h. -/
def BUS1_QUEUE_TYPE_SHIFT : Nat := 62

/-- Node state relevant to the predicate claims: whether the rb-tree linkage is
attached (`!RB_EMPTY_NODE(&node->rb)`) and the 64-bit `timestamp_and_type`
word (a `u64`: values below 2 ^ 64). -/
structure bus1_queue_node where
  rb_linked : Bool
  timestamp_and_type : Nat
deriving DecidableEq, Repr

/-- bus1_queue_node_get_timestamp from queue.h:
`node->timestamp_and_type & ~BUS1_QUEUE_TYPE_MASK`, i.e. the low 62 bits. -/
def bus1_queue_node_get_timestamp (node : bus1_queue_node) : Nat :=
  node.timestamp_and_type % 2 ^ BUS1_QUEUE_TYPE_SHIFT

/-- bus1_queue_node_is_queued from queue.h: `!RB_EMPTY_NODE(&node->rb)`. -/
def bus1_queue_node_is_queued (node : bus1_queue_node) : Bool :=
  node.rb_linked

/-- bus1_queue_node_is_staging from queue.h:
`bus1_queue_node_get_timestamp(node) & 1`. Note that the C code tests only the
low timestamp bit; it does not consult the tree linkage. -/
def bus1_queue_node_is_staging (node : bus1_queue_node) : Bool :=
  bus1_queue_node_get_timestamp node % 2 = 1

/-- C6: across any sequence of tick and sync operations the queue clock is
monotonically non-decreasing, and if the clock starts even and every sync in
the sequence is called with an even timestamp, the clock is even after the
whole sequence (hence, by induction, after each operation). -/
theorem bus1_queue_clock_monotone_even (queue : bus1_queue) (ops : List QOp) :
    queue.clock ≤ (bus1_queue_run queue ops).clock ∧
    (queue.clock % 2 = 0 → (∀ op ∈ ops, QOp.syncEven op = true) →
      (bus1_queue_run queue ops).clock % 2 = 0) := by
  induction ops generalizing queue with
  | nil => exact ⟨Nat.le_refl _, fun h _ => h⟩
  | cons op rest ih =>
      have hstep : queue.clock ≤ (bus1_queue_apply queue op).clock := by
        cases op with
        | tick => simp [bus1_queue_apply, bus1_queue_tick]
        | sync t => simp [bus1_queue_apply, bus1_queue_sync, Nat.le_max_left]
      refine ⟨Nat.le_trans hstep ((ih (bus1_queue_apply queue op)).1), ?_⟩
      intro heven hall
      refine (ih (bus1_queue_apply queue op)).2 ?_ ?_
      · cases op with
        | tick =>
            simp [bus1_queue_apply, bus1_queue_tick]
            omega
        | sync t =>
            have ht : t % 2 = 0 := by
              have := hall (QOp.sync t) (by simp)
              simpa [QOp.syncEven] using this
            simp [bus1_queue_apply, bus1_queue_sync]
            rcases Nat.le_total queue.clock t with hle | hle
            · rw [Nat.max_eq_right hle]
              exact ht
            · rw [Nat.max_eq_left hle]
              exact heven
      · intro o ho
        exact hall o (List.mem_cons_of_mem _ ho)

theorem bus1_queue_clock_monotone_even_witness :
    (bus1_queue.mk 0).clock % 2 = 0 ∧
    (∀ op ∈ [QOp.tick, QOp.sync 6], QOp.syncEven op = true) ∧
    (bus1_queue.mk 0).clock ≤
      (bus1_queue_run (bus1_queue.mk 0) [QOp.tick, QOp.sync 6]).clock ∧
    (bus1_queue_run (bus1_queue.mk 0) [QOp.tick, QOp.sync 6]).clock % 2 = 0 :=
  ⟨by decide, by decide,
   (bus1_queue_clock_monotone_even (bus1_queue.mk 0) [QOp.tick, QOp.sync 6]).1,
   (bus1_queue_clock_monotone_even (bus1_queue.mk 0) [QOp.tick, QOp.sync 6]).2
     (by decide) (by decide)⟩

/-- C7: tick increases the clock by exactly 2 and returns the new clock value;
sync with an even timestamp sets the clock to the maximum of the clock and the
timestamp and returns the new clock value; and applying the same sync twice has
the same effect on the queue as applying it once. -/
theorem bus1_queue_tick_sync_spec (queue : bus1_queue) (t : Nat)
    (ht : t % 2 = 0) :
    (bus1_queue_tick queue).1.clock = queue.clock + 2 ∧
    (bus1_queue_tick queue).2 = (bus1_queue_tick queue).1.clock ∧
    (bus1_queue_sync queue t).1.clock = max queue.clock t ∧
    (bus1_queue_sync queue t).2 = (bus1_queue_sync queue t).1.clock ∧
    bus1_queue_sync (bus1_queue_sync queue t).1 t = bus1_queue_sync queue t := by
  refine ⟨rfl, rfl, rfl, rfl, ?_⟩
  simp [bus1_queue_sync, Nat.max_assoc]

theorem bus1_queue_tick_sync_spec_witness :
    (10:Nat) % 2 = 0 ∧
    (bus1_queue_tick (bus1_queue.mk 4)).1.clock = 6 ∧
    (bus1_queue_sync (bus1_queue.mk 4) 10).1.clock = 10 ∧
    bus1_queue_sync (bus1_queue_sync (bus1_queue.mk 4) 10).1 10 =
      bus1_queue_sync (bus1_queue.mk 4) 10 := by
  refine ⟨by decide, ?_, ?_, ?_⟩
  · have h := (bus1_queue_tick_sync_spec (bus1_queue.mk 4) 10 (by decide)).1
    simpa using h
  · have h := (bus1_queue_tick_sync_spec (bus1_queue.mk 4) 10 (by decide)).2.2.1
    simpa using h
  · exact (bus1_queue_tick_sync_spec (bus1_queue.mk 4) 10 (by decide)).2.2.2.2

/-- C8 counterexample: is_staging does not require the node to be queued. A
node whose rb linkage is detached but whose timestamp word is 1 (an odd
timestamp, as left behind when a staged node is removed from the tree) is
reported as staging while not queued, so "is_staging iff queued and odd low
bit" fails as a statement about the function. -/
theorem bus1_queue_node_staging_unqueued :
    bus1_queue_node_is_staging (bus1_queue_node.mk false 1) = true ∧
    bus1_queue_node_is_queued (bus1_queue_node.mk false 1) = false := by
  constructor
  · rfl
  · rfl

/-- C8 (amended): is_staging returns true iff the low bit of the node's
timestamp is 1, with no reference to the tree linkage; consequently, restricted
to queued nodes it coincides with the claimed predicate "queued and low
timestamp bit 1". -/
theorem bus1_queue_node_is_staging_spec (node : bus1_queue_node) :
    (bus1_queue_node_is_staging node = true ↔
      node.timestamp_and_type % 2 = 1) ∧
    (bus1_queue_node_is_queued node = true →
      (bus1_queue_node_is_staging node = true ↔
        bus1_queue_node_is_queued node = true ∧
          node.timestamp_and_type % 2 = 1)) := by
  have hlow : bus1_queue_node_get_timestamp node % 2 =
      node.timestamp_and_type % 2 := by
    unfold bus1_queue_node_get_timestamp BUS1_QUEUE_TYPE_SHIFT
    exact Nat.mod_mod_of_dvd _ (by decide)
  constructor
  · simp [bus1_queue_node_is_staging, hlow]
  · intro hq
    simp [bus1_queue_node_is_staging, hlow, hq]

theorem bus1_queue_node_is_staging_spec_witness :
    bus1_queue_node_is_queued (bus1_queue_node.mk true 5) = true ∧
    (bus1_queue_node_is_staging (bus1_queue_node.mk true 5) = true ↔
      bus1_queue_node_is_queued (bus1_queue_node.mk true 5) = true ∧
        (bus1_queue_node.mk true 5).timestamp_and_type % 2 = 1) :=
  ⟨rfl, (bus1_queue_node_is_staging_spec (bus1_queue_node.mk true 5)).2 rfl⟩

end Bus1
